import Mathlib

/-!
Verification of the per-user conversation/order pipeline of a multi-tenant
cafe ordering bot (`main.py`): tenant resolution, the cart state machine,
checkout with rate limiting, and the win-back scheduler.

The embedding models Python dictionaries as association lists
(`List (String × Nat)`) with first-match lookup, timestamps as `Int`
(Python's `time.time()` values compared with `<`), and Python's floor
division `//` as `Int` division, which is Euclidean and agrees with floor
division whenever the divisor is positive.  Redis reads
appear as explicit parameters; a key that was never written or whose TTL
expired is `Option.none`.
-/

namespace CafeBot

/-- The cancel button label, from `BTN_CANCEL` in `main.py`. -/
def BTN_CANCEL : String := "🔙 Отмена"

/-- Tenant configuration fields used by the ordering pipeline, from
`cafe_hours` and `cafe_rate_limit_seconds` in `main.py`. -/
structure Cafe where
  work_start : Nat
  work_end : Nat
  rate_limit_seconds : Nat
deriving DecidableEq, Repr

/-- `cafe_open`: `ws <= get_moscow_time().hour < we`, with the current hour
passed explicitly. -/
def cafe_open (cafe : Cafe) (hour : Nat) : Bool :=
  decide (cafe.work_start ≤ hour) && decide (hour < cafe.work_end)

/-- `cart_total(cart, menu)`:
`sum(int(menu.get(d, 0)) * int(q) for d, q in cart.items())`. -/
def cart_total (cart menu : List (String × Nat)) : Nat :=
  (cart.map (fun dq => ((menu.lookup dq.1).getD 0) * dq.2)).sum

/-- Stated from the spec's words, for comparison with `cart_total`: the sum
over cart items of the live menu's unit price times the cart quantity, where
an item absent from the menu contributes zero. -/
def spec_checkout_total (cart menu : List (String × Nat)) : Nat :=
  (cart.map (fun dq =>
    match menu.lookup dq.1 with
    | some price => price * dq.2
    | none => 0)).sum

/-- Conversation FSM states from `OrderStates` and `BookingStates`;
`cleared` is aiogram's state `None` after `state.clear()`. -/
inductive StateTag
  | cleared
  | waiting_for_quantity
  | cart_view
  | cart_edit_pick_item
  | cart_edit_pick_action
  | waiting_for_confirmation
  | waiting_for_ready_time
  | booking_waiting_for_datetime
  | booking_waiting_for_people
  | booking_waiting_for_comment
deriving DecidableEq, Repr

/-- The conversation data bag fields read by the ordering handlers
(`cart`, `current_drink`). -/
structure FSMData where
  cart : List (String × Nat)
  current_drink : Option String
deriving DecidableEq, Repr

/-- The empty data bag. -/
def FSMData.empty : FSMData := ⟨[], none⟩

/-- A per-user conversation state: aiogram FSM tag plus data bag. -/
structure FSM where
  tag : StateTag
  data : FSMData
deriving DecidableEq, Repr

/-- `state.clear()`: resets the tag to `None` and empties the data bag. -/
def state_clear (_ : FSM) : FSM := ⟨.cleared, .empty⟩

/-- Code points of the zero digit of every Unicode decimal-digit (`Nd`)
block, Unicode 14.0 (CPython 3.11's `unicodedata`).  Decimal digits always
occupy a contiguous run `z`‥`z+9` with values 0‥9, and Python's `int()` on
a single character accepts exactly the characters of these runs. -/
def nd_zero_points : List Nat :=
  [0x30, 0x660, 0x6F0, 0x7C0, 0x966, 0x9E6, 0xA66, 0xAE6, 0xB66, 0xBE6,
   0xC66, 0xCE6, 0xD66, 0xDE6, 0xE50, 0xED0, 0xF20, 0x1040, 0x1090, 0x17E0,
   0x1810, 0x1946, 0x19D0, 0x1A80, 0x1A90, 0x1B50, 0x1BB0, 0x1C40, 0x1C50,
   0xA620, 0xA8D0, 0xA900, 0xA9D0, 0xA9F0, 0xAA50, 0xABF0, 0xFF10, 0x104A0,
   0x10D30, 0x11066, 0x110F0, 0x11136, 0x111D0, 0x112F0, 0x11450, 0x114D0,
   0x11650, 0x116C0, 0x11730, 0x118E0, 0x11950, 0x11C50, 0x11D50, 0x11DA0,
   0x16A60, 0x16AC0, 0x16B50, 0x1D7CE, 0x1D7D8, 0x1D7E2, 0x1D7EC, 0x1D7F6,
   0x1E140, 0x1E2F0, 0x1E950, 0x1FBF0]

/-- Python `int(c)` for a single character `c`: its decimal value when `c`
is a Unicode decimal digit (category `Nd`) — so the ASCII `"4"`, the
fullwidth `"５"` and the Arabic-Indic `"٣"` are all accepted — and `none`
(a `ValueError`) for every other character. -/
def char_decimal_digit (c : Char) : Option Nat :=
  (nd_zero_points.find? (fun z => decide (z ≤ c.toNat) && decide (c.toNat ≤ z + 9))).map
    (fun z => c.toNat - z)

/-- `int((message.text or "")[0])`: the decimal value of the first
character of the input; `none` models the `IndexError` on empty text and
the `ValueError` on a non-digit first character, both caught by the
surrounding `except`. -/
def first_char_digit (s : String) : Option Nat :=
  match s.data with
  | [] => none
  | c :: _ => char_decimal_digit c

/-- `cart[drink] = int(cart.get(drink, 0)) + qty` on an insertion-ordered
dict: bump the existing entry in place, else append a new entry. -/
def cart_add (cart : List (String × Nat)) (d : String) (q : Nat) :
    List (String × Nat) :=
  if (cart.lookup d).isSome then
    cart.map (fun p => if p.1 == d then (p.1, p.2 + q) else p)
  else cart ++ [(d, q)]

/-- Observable reply of `process_quantity`. -/
inductive QtyReply
  | canceled
  | invalid
  | errorReset
  | added (drink : String) (qty : Nat)
deriving DecidableEq, Repr

/-- `process_quantity` (handler for `OrderStates.waiting_for_quantity`):
on `BTN_CANCEL` it only answers, leaving state and data untouched; otherwise
it parses `int(text[0])`, rejects unless the value is in `[1,5]`, clears the
state when the pending drink is missing or no longer in the menu, and
otherwise merges the quantity into the cart and moves to `cart_view`. -/
def process_quantity (menu : List (String × Nat)) (st : FSM) (text : String) :
    FSM × QtyReply :=
  if text == BTN_CANCEL then (st, .canceled)
  else
    match first_char_digit text with
    | none => (st, .invalid)
    | some q =>
      if 1 ≤ q ∧ q ≤ 5 then
        match st.data.current_drink with
        | none => (state_clear st, .errorReset)
        | some drink =>
          if (menu.lookup drink).isSome then
            (⟨.cart_view, ⟨cart_add st.data.cart drink q, some drink⟩⟩,
              .added drink q)
          else (state_clear st, .errorReset)
      else (st, .invalid)

/-- Observable reply of the drink-selection fallback handler. -/
inductive SelectReply
  | fallbackPrompt
  | closedBlocked
  | unavailable
  | promptQuantity (drink : String) (price : Nat)
deriving DecidableEq, Repr

/-- `start_add_item`: re-reads the price; when present, records the chosen
drink and moves to `waiting_for_quantity`, keeping the cart. -/
def start_add_item (menu : List (String × Nat)) (st : FSM) (drink : String) :
    FSM × SelectReply :=
  match menu.lookup drink with
  | none => (st, .unavailable)
  | some price =>
    (⟨.waiting_for_quantity, ⟨st.data.cart, some drink⟩⟩,
      .promptQuantity drink price)

/-- `any_text` (fallback drink pick): a text naming a menu item is blocked
with the closed message when the cafe is closed, else enters
`start_add_item`; any other text re-prompts the menu. -/
def any_text (cafe : Cafe) (hour : Nat) (menu : List (String × Nat))
    (st : FSM) (text : String) : FSM × SelectReply :=
  if (menu.lookup text).isSome then
    if cafe_open cafe hour then start_add_item menu st text
    else (st, .closedBlocked)
  else (st, .fallbackPrompt)

/-- Observable reply of the checkout button handler. -/
inductive CheckoutReply
  | closedBlocked
  | emptyCart
  | confirmPrompt
deriving DecidableEq, Repr

/-- `checkout` (handler for `BTN_CHECKOUT`): blocked with the closed message
when the cafe is closed, rejected when the cart is empty, otherwise moves to
`waiting_for_confirmation`; in the blocked cases state and cart are left
untouched. -/
def checkout (cafe : Cafe) (hour : Nat) (st : FSM) : FSM × CheckoutReply :=
  if cafe_open cafe hour then
    if st.data.cart.isEmpty then (st, .emptyCart)
    else ({ st with tag := .waiting_for_confirmation }, .confirmPrompt)
  else (st, .closedBlocked)

/-- Result surfaced by `finalize_order`: the rate-limited reply carries the
number of seconds printed in the message. -/
inductive OrderOutcome
  | emptyCart
  | rateLimited (msgSeconds : Nat)
  | success (total : Nat)
deriving DecidableEq, Repr

/-- Post-state of `finalize_order`: outcome, conversation state, and the
rate-limit marker value after the call (`none` = absent/expired). -/
structure FinalizeResult where
  outcome : OrderOutcome
  fsm : FSM
  marker : Option Int
deriving DecidableEq, Repr

/-- `finalize_order`: empty cart clears state and reports it; a rate-limit
marker younger than the tenant's window rejects with a message showing the
window length `rl` and clears the state; otherwise a fresh marker is written
(`setex`, expiry `rl`), the total is computed from the menu read at checkout
time, and the state is cleared after the success reply.  No open-hours check
appears anywhere in this function. -/
def finalize_order (cafe : Cafe) (menu : List (String × Nat)) (st : FSM)
    (marker : Option Int) (now : Int) : FinalizeResult :=
  let cart := st.data.cart
  if cart.isEmpty then ⟨.emptyCart, state_clear st, marker⟩
  else
    let rl := cafe.rate_limit_seconds
    match marker with
    | some t =>
      if now - t < (rl : Int) then ⟨.rateLimited rl, state_clear st, marker⟩
      else ⟨.success (cart_total cart menu), state_clear st, some now⟩
    | none => ⟨.success (cart_total cart menu), state_clear st, some now⟩

/-- A Redis string key written with `setex`: the stored value and the
absolute instant at which it expires (the write time plus the TTL). -/
structure RedisKey where
  value : Int
  expire_at : Int
deriving DecidableEq, Repr

/-- Redis `get` on such a key: the stored value while `now` is before the
expiry, `none` once the TTL has elapsed or when the key was never
written. -/
def redis_get (key : Option RedisKey) (now : Int) : Option Int :=
  match key with
  | none => none
  | some k => if now < k.expire_at then some k.value else none

/-- One checkout attempt with the rate-limit key's Redis lifecycle made
explicit: the marker is read with `get` at call time (line 1243), and the
`setex` on the pass path (line 1251) — taken exactly when the outcome is a
success — stores the fresh timestamp with the tenant's window as its TTL.
Returns the result together with the key as it stands after the call. -/
def finalize_order_redis (cafe : Cafe) (menu : List (String × Nat))
    (st : FSM) (key : Option RedisKey) (now : Int) :
    FinalizeResult × Option RedisKey :=
  let res := finalize_order cafe menu st (redis_get key now) now
  match res.outcome with
  | .success _ =>
    (res, some ⟨now, now + (cafe.rate_limit_seconds : Int)⟩)
  | _ => (res, key)

/-- `resolve_cafe_id` fallback when the payload is absent or unknown: a
saved binding still naming a known cafe is returned unchanged, else the
default cafe is bound and returned.  The pair is (returned id, the user's
binding after the call). -/
def resolve_saved (cafes : List String) (default_cafe : String)
    (saved : Option String) : String × String :=
  match saved with
  | some s => if cafes.contains s then (s, s) else (default_cafe, default_cafe)
  | none => (default_cafe, default_cafe)

/-- `resolve_cafe_id`: a payload naming a known cafe is bound and returned;
anything else falls through to the saved/default binding and is never an
error. -/
def resolve_cafe_id (cafes : List String) (default_cafe : String)
    (saved : Option String) (payload : Option String) : String × String :=
  match payload with
  | some p =>
    if cafes.contains p then (p, p)
    else resolve_saved cafes default_cafe saved
  | none => resolve_saved cafes default_cafe saved

/-- `booking_start` (handler for `BTN_BOOKING`): `state.clear()` first, then
`set_state(BookingStates.waiting_for_datetime)` — the data bag, cart
included, is emptied unconditionally. -/
def booking_start (st : FSM) : FSM :=
  { state_clear st with tag := .booking_waiting_for_datetime }

/-- Win-back profile fields read by `smart_return_check_and_send`. -/
structure CustomerProfile where
  offers_opt_out : Bool
  last_order_ts : Int
  last_trigger_ts : Int
deriving DecidableEq, Repr

/-- The skip chain of `smart_return_check_and_send` for one customer:
skip on opt-out, on `(now - last_order_ts) // 86400 < 7`
(`DEFAULT_RETURN_CYCLE_DAYS`), or on a nonzero `last_trigger_ts` within the
14-day cooldown (`RETURN_COOLDOWN_DAYS`). -/
def winback_skip (p : CustomerProfile) (now : Int) : Bool :=
  if p.offers_opt_out then true
  else if (now - p.last_order_ts) / 86400 < (7 : Int) then true
  else if p.last_trigger_ts ≠ 0 ∧ now - p.last_trigger_ts < 14 * 86400 then
    true
  else false

/-- Outcome of `bot.send_message` in the sweep.  The gateway distinguishes
permanent failures (recipient unreachable) from transient ones (network,
flood control) through the exception type; the handler's bare
`except Exception` receives but never inspects that distinction, so the
model carries it as a `Bool` the code ignores. -/
inductive SendOutcome
  | delivered
  | failed (permanent : Bool)
deriving DecidableEq, Repr

/-- Per-customer effect of the sweep's send step: the profile after the call
and whether the customer is still in the tenant's known-customers set. -/
structure SweepEffect where
  profile : CustomerProfile
  inCustomerSet : Bool
deriving DecidableEq, Repr

/-- The send step of `smart_return_check_and_send`: on success stamp
`last_trigger_ts = now`; on any exception from the send, `srem` the customer
from the tenant's set. -/
def winback_send_step (p : CustomerProfile) (res : SendOutcome) (now : Int) :
    SweepEffect :=
  match res with
  | .delivered => ⟨{ p with last_trigger_ts := now }, true⟩
  | .failed _ => ⟨p, false⟩

/-! ### Helper lemmas -/

/-- The source total and the spec-side total agree item by item. -/
theorem cart_total_eq_spec_total (cart menu : List (String × Nat)) :
    cart_total cart menu = spec_checkout_total cart menu := by
  unfold cart_total spec_checkout_total
  induction cart with
  | nil => rfl
  | cons hd tl ih =>
    simp only [List.map_cons, List.sum_cons, ih]
    cases h : menu.lookup hd.1 <;> simp [h]

/-- With a non-empty cart and no marker, `finalize_order` takes the pass
path: success with the checkout-time total, state cleared, marker
rewritten to the attempt's timestamp. -/
theorem finalize_order_pass_none (cafe : Cafe) (menu : List (String × Nat))
    (st : FSM) (now : Int) (hne : st.data.cart ≠ []) :
    finalize_order cafe menu st none now
      = ⟨.success (cart_total st.data.cart menu), state_clear st,
          some now⟩ := by
  unfold finalize_order
  rw [if_neg (by simp [List.isEmpty_iff, hne])]

/-- With a non-empty cart and a marker younger than the window,
`finalize_order` rejects, showing the window length, clearing the state
and leaving the marker as it was. -/
theorem finalize_order_reject_young (cafe : Cafe)
    (menu : List (String × Nat)) (st : FSM) (t now : Int)
    (hne : st.data.cart ≠ [])
    (hyoung : now - t < (cafe.rate_limit_seconds : Int)) :
    finalize_order cafe menu st (some t) now
      = ⟨.rateLimited cafe.rate_limit_seconds, state_clear st,
          some t⟩ := by
  unfold finalize_order
  rw [if_neg (by simp [List.isEmpty_iff, hne])]
  simp only [if_pos hyoung]

/-- With a non-empty cart and a marker at least a window old,
`finalize_order` passes the rate check and succeeds. -/
theorem finalize_order_pass_old (cafe : Cafe) (menu : List (String × Nat))
    (st : FSM) (t now : Int) (hne : st.data.cart ≠ [])
    (hold : (cafe.rate_limit_seconds : Int) ≤ now - t) :
    finalize_order cafe menu st (some t) now
      = ⟨.success (cart_total st.data.cart menu), state_clear st,
          some now⟩ := by
  unfold finalize_order
  rw [if_neg (by simp [List.isEmpty_iff, hne])]
  simp only [if_neg (by omega : ¬ (now - t < (cafe.rate_limit_seconds : Int)))]

/-- A first checkout with no stored key: success, and the key now holds
the attempt's timestamp, expiring a window later. -/
theorem finalize_order_redis_pass_none (cafe : Cafe)
    (menu : List (String × Nat)) (st : FSM) (now : Int)
    (hne : st.data.cart ≠ []) :
    finalize_order_redis cafe menu st none now
      = (⟨.success (cart_total st.data.cart menu), state_clear st,
            some now⟩,
         some ⟨now, now + (cafe.rate_limit_seconds : Int)⟩) := by
  simp only [finalize_order_redis, redis_get]
  rw [finalize_order_pass_none cafe menu st now hne]

/-- A checkout while the stored key is still live and its timestamp is
younger than the window: rejected, key untouched. -/
theorem finalize_order_redis_reject (cafe : Cafe)
    (menu : List (String × Nat)) (st : FSM) (v e now : Int)
    (hne : st.data.cart ≠ []) (hlive : now < e)
    (hyoung : now - v < (cafe.rate_limit_seconds : Int)) :
    finalize_order_redis cafe menu st (some ⟨v, e⟩) now
      = (⟨.rateLimited cafe.rate_limit_seconds, state_clear st, some v⟩,
         some ⟨v, e⟩) := by
  simp only [finalize_order_redis, redis_get]
  rw [if_pos hlive, finalize_order_reject_young cafe menu st v now hne hyoung]

/-- A checkout once the stored key's TTL has elapsed: the `get` returns
nothing, the rate check passes, and the order succeeds, rewriting the
key. -/
theorem finalize_order_redis_expired (cafe : Cafe)
    (menu : List (String × Nat)) (st : FSM) (v e now : Int)
    (hne : st.data.cart ≠ []) (hdead : e ≤ now) :
    finalize_order_redis cafe menu st (some ⟨v, e⟩) now
      = (⟨.success (cart_total st.data.cart menu), state_clear st,
            some now⟩,
         some ⟨now, now + (cafe.rate_limit_seconds : Int)⟩) := by
  simp only [finalize_order_redis, redis_get]
  rw [if_neg (by omega), finalize_order_pass_none cafe menu st now hne]

/-! ### Claim theorems -/

/-- C1: for every cart and live menu, the checkout total computed by
`finalize_order` equals the sum over cart items of the menu's unit price
times the cart quantity, an item absent from the menu contributing zero;
the total is a `Nat` (never negative, no failure case) and is computed from
the menu passed to `finalize_order`, i.e. the live menu read at checkout
time. -/
theorem checkout_total_matches_menu (cafe : Cafe)
    (menu : List (String × Nat)) (st : FSM) (now : Int)
    (hne : st.data.cart ≠ []) :
    cart_total st.data.cart menu = spec_checkout_total st.data.cart menu ∧
    (finalize_order cafe menu st none now).outcome
      = .success (spec_checkout_total st.data.cart menu) := by
  refine ⟨cart_total_eq_spec_total _ _, ?_⟩
  unfold finalize_order
  simp [List.isEmpty_iff, hne, cart_total_eq_spec_total]

/-- Witness for C1: a concrete two-item cart totals 650 at checkout. -/
theorem checkout_total_matches_menu_witness :
    cart_total [("Латте", 2), ("Мокко", 1)] [("Латте", 200), ("Мокко", 250)]
        = spec_checkout_total [("Латте", 2), ("Мокко", 1)]
            [("Латте", 200), ("Мокко", 250)] ∧
    (finalize_order ⟨9, 21, 60⟩ [("Латте", 200), ("Мокко", 250)]
        ⟨.waiting_for_ready_time, ⟨[("Латте", 2), ("Мокко", 1)], none⟩⟩
        none 1000).outcome
      = .success (spec_checkout_total [("Латте", 2), ("Мокко", 1)]
          [("Латте", 200), ("Мокко", 250)]) :=
  checkout_total_matches_menu ⟨9, 21, 60⟩ [("Латте", 200), ("Мокко", 250)]
    ⟨.waiting_for_ready_time, ⟨[("Латте", 2), ("Мокко", 1)], none⟩⟩ 1000
    (by decide)

/-- C2: for a tenant with a positive rate-limit window (Redis `setex`
requires a positive TTL, so the embedding is restricted to that domain)
and non-empty carts: a first checkout with no marker succeeds and stores a
marker that expires one window later; a second attempt made while that
marker from the prior checkout is younger than the window is rejected as
rate-limited; an attempt made after the window has elapsed — the stored
key has expired — passes the rate check and succeeds; and an attempt whose
marker is still readable but at least a window old (possible when the
tenant's window shrank between the checkouts) likewise passes and
succeeds. -/
theorem rate_limit_prior_checkout_gate (cafe : Cafe)
    (menu : List (String × Nat)) (st1 st2 st3 : FSM) (t0 t1 t2 t : Int)
    (_hrl : 0 < cafe.rate_limit_seconds)
    (h1 : st1.data.cart ≠ []) (h2 : st2.data.cart ≠ [])
    (h3 : st3.data.cart ≠ [])
    (hyoung : t1 - t0 < (cafe.rate_limit_seconds : Int))
    (hold : (cafe.rate_limit_seconds : Int) ≤ t2 - t0)
    (holdm : (cafe.rate_limit_seconds : Int) ≤ t2 - t) :
    (finalize_order_redis cafe menu st1 none t0).1.outcome
      = .success (cart_total st1.data.cart menu) ∧
    (finalize_order_redis cafe menu st2
        (finalize_order_redis cafe menu st1 none t0).2 t1).1.outcome
      = .rateLimited cafe.rate_limit_seconds ∧
    (finalize_order_redis cafe menu st3
        (finalize_order_redis cafe menu st1 none t0).2 t2).1.outcome
      = .success (cart_total st3.data.cart menu) ∧
    (finalize_order cafe menu st3 (some t) t2).outcome
      = .success (cart_total st3.data.cart menu) := by
  have hstep1 := finalize_order_redis_pass_none cafe menu st1 t0 h1
  refine ⟨?_, ?_, ?_, ?_⟩
  · rw [hstep1]
  · rw [hstep1,
      finalize_order_redis_reject cafe menu st2 t0
        (t0 + (cafe.rate_limit_seconds : Int)) t1 h2 (by omega) (by omega)]
  · rw [hstep1,
      finalize_order_redis_expired cafe menu st3 t0
        (t0 + (cafe.rate_limit_seconds : Int)) t2 h3 (by omega)]
  · rw [finalize_order_pass_old cafe menu st3 t t2 h3 holdm]

/-- Witness for C2: window 60s; the first checkout at t=100 succeeds, a
second at t=110 (marker 10s old) is rejected, one at t=160 finds the key
expired and succeeds, and one at t=160 against a still-present marker from
t=50 also succeeds. -/
theorem rate_limit_prior_checkout_gate_witness :
    (finalize_order_redis ⟨9, 21, 60⟩ [("Латте", 200)]
        ⟨.waiting_for_ready_time, ⟨[("Латте", 2)], none⟩⟩ none 100).1.outcome
      = .success (cart_total [("Латте", 2)] [("Латте", 200)]) ∧
    (finalize_order_redis ⟨9, 21, 60⟩ [("Латте", 200)]
        ⟨.waiting_for_ready_time, ⟨[("Латте", 2)], none⟩⟩
        (finalize_order_redis ⟨9, 21, 60⟩ [("Латте", 200)]
          ⟨.waiting_for_ready_time, ⟨[("Латте", 2)], none⟩⟩
          none 100).2 110).1.outcome = .rateLimited 60 ∧
    (finalize_order_redis ⟨9, 21, 60⟩ [("Латте", 200)]
        ⟨.waiting_for_ready_time, ⟨[("Латте", 2)], none⟩⟩
        (finalize_order_redis ⟨9, 21, 60⟩ [("Латте", 200)]
          ⟨.waiting_for_ready_time, ⟨[("Латте", 2)], none⟩⟩
          none 100).2 160).1.outcome
      = .success (cart_total [("Латте", 2)] [("Латте", 200)]) ∧
    (finalize_order ⟨9, 21, 60⟩ [("Латте", 200)]
        ⟨.waiting_for_ready_time, ⟨[("Латте", 2)], none⟩⟩
        (some 50) 160).outcome
      = .success (cart_total [("Латте", 2)] [("Латте", 200)]) :=
  rate_limit_prior_checkout_gate ⟨9, 21, 60⟩ [("Латте", 200)]
    ⟨.waiting_for_ready_time, ⟨[("Латте", 2)], none⟩⟩
    ⟨.waiting_for_ready_time, ⟨[("Латте", 2)], none⟩⟩
    ⟨.waiting_for_ready_time, ⟨[("Латте", 2)], none⟩⟩
    100 110 160 50 (by decide) (by decide) (by decide) (by decide)
    (by decide) (by decide) (by decide)

/-- C3 counterexample: window 60s, marker written at time 0, attempt at
time 10.  The remaining wait is 50s, but the message shows 60 — the full
window, a fixed value, not the remaining time. -/
theorem rate_limited_message_counterexample :
    (finalize_order ⟨9, 21, 60⟩ [("Латте", 200)]
        ⟨.waiting_for_ready_time, ⟨[("Латте", 2)], none⟩⟩
        (some 0) 10).outcome = .rateLimited 60 ∧
    ((60 : Int) - (10 - 0) ≠ 60) := by
  constructor
  · decide
  · decide

/-- C3 amended: when a checkout is rejected as rate-limited, the message
reports the tenant's full rate-limit window in seconds (a fixed value, not
the remaining wait), and the conversation state including the pending cart
is cleared, not queued for retry. -/
theorem rate_limited_shows_window_and_drops_cart (cafe : Cafe)
    (menu : List (String × Nat)) (st : FSM) (t now : Int)
    (hne : st.data.cart ≠ [])
    (hyoung : now - t < (cafe.rate_limit_seconds : Int)) :
    (finalize_order cafe menu st (some t) now).outcome
      = .rateLimited cafe.rate_limit_seconds ∧
    (finalize_order cafe menu st (some t) now).fsm = ⟨.cleared, .empty⟩ := by
  unfold finalize_order state_clear
  simp [List.isEmpty_iff, hne, hyoung]

/-- Witness for C3's amended claim at the same concrete input. -/
theorem rate_limited_shows_window_witness :
    (finalize_order ⟨9, 21, 60⟩ [("Латте", 200)]
        ⟨.waiting_for_ready_time, ⟨[("Латте", 2)], some "Латте"⟩⟩
        (some 0) 10).outcome = .rateLimited 60 ∧
    (finalize_order ⟨9, 21, 60⟩ [("Латте", 200)]
        ⟨.waiting_for_ready_time, ⟨[("Латте", 2)], some "Латте"⟩⟩
        (some 0) 10).fsm = ⟨.cleared, .empty⟩ :=
  rate_limited_shows_window_and_drops_cart ⟨9, 21, 60⟩ [("Латте", 200)]
    ⟨.waiting_for_ready_time, ⟨[("Латте", 2)], some "Латте"⟩⟩ 0 10
    (by decide) (by decide)

/-- C4 counterexample: in `selecting_quantity` with pending item "Латте",
the text "42" is not rejected: `int(text[0])` reads the first character, so
it is accepted as quantity 4, merged into the cart, and the state moves to
`cart_view`. -/
theorem quantity_42_accepted_counterexample :
    process_quantity [("Латте", 200)]
        ⟨.waiting_for_quantity, ⟨[], some "Латте"⟩⟩ "42"
      = (⟨.cart_view, ⟨[("Латте", 4)], some "Латте"⟩⟩, .added "Латте" 4) := by
  decide

/-- C4 amended: in `selecting_quantity` with a valid pending item, a
non-cancel input is accepted exactly when its first character is a decimal
digit in Python's `int()` sense — any Unicode `Nd` digit, the fullwidth
"５" as much as the ASCII "4" — whose value lies in [1,5]; the accepted
quantity is that digit's value (so "42" is accepted as 4 and "５2" as 5),
merged additively into the cart, and the state moves to `cart_view`; every
other non-cancel input is rejected with the format hint and state and cart
are left unchanged. -/
theorem quantity_accepts_first_digit (menu : List (String × Nat)) (st : FSM)
    (text d : String) (hd : st.data.current_drink = some d)
    (hm : (menu.lookup d).isSome = true) (hc : text ≠ BTN_CANCEL) :
    (∀ q, first_char_digit text = some q → 1 ≤ q → q ≤ 5 →
      process_quantity menu st text
        = (⟨.cart_view, ⟨cart_add st.data.cart d q, some d⟩⟩,
            .added d q)) ∧
    ((∀ q, first_char_digit text = some q → q = 0 ∨ 6 ≤ q) →
      process_quantity menu st text = (st, .invalid)) := by
  have hcb : (text == BTN_CANCEL) = false := by
    simpa using hc
  constructor
  · intro q hq h1 h5
    unfold process_quantity
    rw [hcb, hq, hd]
    simp only [Bool.false_eq_true, if_false]
    rw [if_pos ⟨h1, h5⟩, if_pos hm]
  · intro hout
    unfold process_quantity
    rw [hcb]
    simp only [Bool.false_eq_true, if_false]
    cases hq : first_char_digit text with
    | none => rfl
    | some q =>
      have hq5 := hout q hq
      have hno : ¬(1 ≤ q ∧ q ≤ 5) := by omega
      simp [hno]

/-- Witness for C4's amended claim: "3" is accepted as 3, the fullwidth
"５2" is accepted as 5, and "старт" is rejected, all with pending item
"Латте". -/
theorem quantity_accepts_first_digit_witness :
    process_quantity [("Латте", 200)]
        ⟨.waiting_for_quantity, ⟨[("Латте", 1)], some "Латте"⟩⟩ "3"
      = (⟨.cart_view,
            ⟨cart_add [("Латте", 1)] "Латте" 3, some "Латте"⟩⟩,
          .added "Латте" 3) ∧
    process_quantity [("Латте", 200)]
        ⟨.waiting_for_quantity, ⟨[("Латте", 1)], some "Латте"⟩⟩ "５2"
      = (⟨.cart_view,
            ⟨cart_add [("Латте", 1)] "Латте" 5, some "Латте"⟩⟩,
          .added "Латте" 5) ∧
    process_quantity [("Латте", 200)]
        ⟨.waiting_for_quantity, ⟨[("Латте", 1)], some "Латте"⟩⟩ "старт"
      = (⟨.waiting_for_quantity, ⟨[("Латте", 1)], some "Латте"⟩⟩,
          .invalid) :=
  ⟨(quantity_accepts_first_digit [("Латте", 200)]
      ⟨.waiting_for_quantity, ⟨[("Латте", 1)], some "Латте"⟩⟩ "3" "Латте"
      rfl (by decide) (by decide)).1 3 (by decide) (by decide) (by decide),
   (quantity_accepts_first_digit [("Латте", 200)]
      ⟨.waiting_for_quantity, ⟨[("Латте", 1)], some "Латте"⟩⟩ "５2"
      "Латте" rfl (by decide) (by decide)).1 5 (by decide) (by decide)
      (by decide),
   (quantity_accepts_first_digit [("Латте", 200)]
      ⟨.waiting_for_quantity, ⟨[("Латте", 1)], some "Латте"⟩⟩ "старт"
      "Латте" rfl (by decide) (by decide)).2 (by decide)⟩

/-- C5 counterexample: cafe open 9-21, current hour 23 (closed), a
non-empty cart at the ready-time step with no rate-limit marker:
`finalize_order` still succeeds with total 650 — an order can be finalized
while the tenant is closed, because `finalize_order` performs no open-hours
check. -/
theorem finalize_while_closed_counterexample :
    cafe_open ⟨9, 21, 60⟩ 23 = false ∧
    (finalize_order ⟨9, 21, 60⟩ [("Латте", 200), ("Мокко", 250)]
        ⟨.waiting_for_ready_time, ⟨[("Латте", 2), ("Мокко", 1)], none⟩⟩
        none 1000).outcome = .success 650 := by
  constructor
  · decide
  · decide

/-- C5 amended: while the tenant is closed, selecting a menu item and
pressing checkout are both blocked with a closed message and the
conversation state (cart included) is preserved; but `finalize_order`
itself does not re-check open hours, so an order that already reached the
ready-time step still finalizes successfully while closed. -/
theorem closed_blocks_selection_and_checkout (cafe : Cafe) (hour : Nat)
    (menu : List (String × Nat)) (st : FSM) (text : String)
    (now : Int) (hclosed : cafe_open cafe hour = false) :
    ((menu.lookup text).isSome = true →
      any_text cafe hour menu st text = (st, .closedBlocked)) ∧
    checkout cafe hour st = (st, .closedBlocked) ∧
    (st.data.cart ≠ [] →
      (finalize_order cafe menu st none now).outcome
        = .success (cart_total st.data.cart menu)) := by
  refine ⟨fun hmem => ?_, ?_, fun hne => ?_⟩
  · unfold any_text
    rw [if_pos hmem, if_neg (by simp [hclosed])]
  · unfold checkout
    rw [if_neg (by simp [hclosed])]
  · rw [finalize_order_pass_none cafe menu st now hne]

/-- Witness for C5's amended claim at hour 23 with a concrete cart. -/
theorem closed_blocks_selection_and_checkout_witness :
    (any_text ⟨9, 21, 60⟩ 23 [("Латте", 200)]
        ⟨.cart_view, ⟨[("Латте", 2)], none⟩⟩ "Латте"
      = (⟨.cart_view, ⟨[("Латте", 2)], none⟩⟩, .closedBlocked)) ∧
    (checkout ⟨9, 21, 60⟩ 23 ⟨.cart_view, ⟨[("Латте", 2)], none⟩⟩
      = (⟨.cart_view, ⟨[("Латте", 2)], none⟩⟩, .closedBlocked)) ∧
    (finalize_order ⟨9, 21, 60⟩ [("Латте", 200)]
        ⟨.cart_view, ⟨[("Латте", 2)], none⟩⟩ none 1000).outcome
      = .success (cart_total [("Латте", 2)] [("Латте", 200)]) :=
  ⟨(closed_blocks_selection_and_checkout ⟨9, 21, 60⟩ 23 [("Латте", 200)]
      ⟨.cart_view, ⟨[("Латте", 2)], none⟩⟩ "Латте" 1000 (by decide)).1
      (by decide),
   (closed_blocks_selection_and_checkout ⟨9, 21, 60⟩ 23 [("Латте", 200)]
      ⟨.cart_view, ⟨[("Латте", 2)], none⟩⟩ "Латте" 1000 (by decide)).2.1,
   (closed_blocks_selection_and_checkout ⟨9, 21, 60⟩ 23 [("Латте", 200)]
      ⟨.cart_view, ⟨[("Латте", 2)], none⟩⟩ "Латте" 1000 (by decide)).2.2
      (by decide)⟩

/-- C6 counterexample: cancel in `selecting_quantity` with pending item
"Латте" and an existing cart: the FSM does not move to `cart_view` — the
state, the pending item and the cart are all left exactly as they were
(only a reply with the cart keyboard is sent). -/
theorem cancel_quantity_counterexample :
    ((process_quantity [("Латте", 200)]
        ⟨.waiting_for_quantity, ⟨[("Мокко", 1)], some "Латте"⟩⟩
        BTN_CANCEL).1.tag ≠ .cart_view) ∧
    process_quantity [("Латте", 200)]
        ⟨.waiting_for_quantity, ⟨[("Мокко", 1)], some "Латте"⟩⟩ BTN_CANCEL
      = (⟨.waiting_for_quantity, ⟨[("Мокко", 1)], some "Латте"⟩⟩,
          .canceled) := by
  constructor
  · decide
  · decide

/-- C6 amended: a cancel issued in `selecting_quantity` leaves the
conversation state entirely unchanged — still `selecting_quantity`, with
the pending item retained and any existing cart preserved; only the reply
keyboard changes (the cart keyboard when the cart is non-empty). -/
theorem cancel_quantity_keeps_state (menu : List (String × Nat)) (st : FSM) :
    process_quantity menu st BTN_CANCEL = (st, .canceled) := by
  unfold process_quantity
  rw [if_pos (by simp)]

/-- C7: `resolve_cafe_id` returns and binds a known payload cafe; when the
payload is absent or unknown it returns the user's still-valid saved
binding unchanged, and otherwise binds and returns the default cafe — a
total function, so an unknown payload is never an error to the caller. -/
theorem resolve_cafe_id_spec (cafes : List String) (default_cafe : String)
    (saved : Option String) (payload : Option String) :
    (∀ p, payload = some p → cafes.contains p = true →
      resolve_cafe_id cafes default_cafe saved payload = (p, p)) ∧
    ((payload = none ∨
        ∃ p, payload = some p ∧ cafes.contains p = false) →
      ((∀ s, saved = some s → cafes.contains s = true →
          resolve_cafe_id cafes default_cafe saved payload = (s, s)) ∧
       ((saved = none ∨
           ∃ s, saved = some s ∧ cafes.contains s = false) →
         resolve_cafe_id cafes default_cafe saved payload
           = (default_cafe, default_cafe)))) := by
  have hsaved :
      (∀ s, saved = some s → cafes.contains s = true →
        resolve_saved cafes default_cafe saved = (s, s)) ∧
      ((saved = none ∨
          ∃ s, saved = some s ∧ cafes.contains s = false) →
        resolve_saved cafes default_cafe saved
          = (default_cafe, default_cafe)) := by
    constructor
    · intro s hs hmem
      simp only [resolve_saved, hs]
      rw [if_pos hmem]
    · rintro (hn | ⟨s, hs, hmem⟩)
      · simp only [resolve_saved, hn]
      · simp only [resolve_saved, hs]
        rw [if_neg (by rw [hmem]; simp)]
  constructor
  · intro p hp hmem
    simp only [resolve_cafe_id, hp]
    rw [if_pos hmem]
  · rintro (hn | ⟨p, hp, hmem⟩)
    · rw [show resolve_cafe_id cafes default_cafe saved payload
            = resolve_saved cafes default_cafe saved by
          simp only [resolve_cafe_id, hn]]
      exact hsaved
    · rw [show resolve_cafe_id cafes default_cafe saved payload
            = resolve_saved cafes default_cafe saved by
          simp only [resolve_cafe_id, hp]
          rw [if_neg (by rw [hmem]; simp)]]
      exact hsaved

/-- Witness for C7 over the directory `[cafe_001, cafe_002]`: a known
payload binds to it; an unknown payload with a valid saved binding keeps
the binding; no payload and a stale binding fall back to the default. -/
theorem resolve_cafe_id_spec_witness :
    resolve_cafe_id ["cafe_001", "cafe_002"] "cafe_001" (some "cafe_001")
        (some "cafe_002") = ("cafe_002", "cafe_002") ∧
    resolve_cafe_id ["cafe_001", "cafe_002"] "cafe_001" (some "cafe_002")
        (some "cafe_777") = ("cafe_002", "cafe_002") ∧
    resolve_cafe_id ["cafe_001", "cafe_002"] "cafe_001" (some "cafe_999")
        none = ("cafe_001", "cafe_001") :=
  ⟨(resolve_cafe_id_spec ["cafe_001", "cafe_002"] "cafe_001"
      (some "cafe_001") (some "cafe_002")).1 "cafe_002" rfl (by decide),
   ((resolve_cafe_id_spec ["cafe_001", "cafe_002"] "cafe_001"
      (some "cafe_002") (some "cafe_777")).2
      (Or.inr ⟨"cafe_777", rfl, by decide⟩)).1 "cafe_002" rfl (by decide),
   ((resolve_cafe_id_spec ["cafe_001", "cafe_002"] "cafe_001"
      (some "cafe_999") none).2 (Or.inl rfl)).2
      (Or.inr ⟨"cafe_999", rfl, by decide⟩)⟩

/-- C8: a customer is skipped by the win-back sweep iff the opt-out flag is
set, or fewer than 7 days (the re-engagement cycle) have elapsed since
`last_order_ts`, or a nonzero `last_trigger_ts` lies within the 14-day
cooldown; eligibility is monotonic in time — with no prior outreach and no
opt-out, not eligible strictly before `last_order_ts + 7 days` and eligible
at and after it; a trigger inside the cooldown keeps the customer skipped
regardless of the order's age; and eligibility, once gained, is never lost
as time advances. -/
theorem winback_eligibility (p : CustomerProfile) (now t t' : Int) :
    (winback_skip p now = true ↔
      p.offers_opt_out = true ∨
      now - p.last_order_ts < 7 * 86400 ∨
      (p.last_trigger_ts ≠ 0 ∧ now - p.last_trigger_ts < 14 * 86400)) ∧
    (p.offers_opt_out = false → p.last_trigger_ts = 0 →
      (winback_skip p now = false ↔ p.last_order_ts + 7 * 86400 ≤ now)) ∧
    (p.last_trigger_ts ≠ 0 → now - p.last_trigger_ts < 14 * 86400 →
      winback_skip p now = true) ∧
    (t ≤ t' → winback_skip p t = false → winback_skip p t' = false) := by
  have hiff : ∀ m : Int, winback_skip p m = true ↔
      p.offers_opt_out = true ∨
      m - p.last_order_ts < 7 * 86400 ∨
      (p.last_trigger_ts ≠ 0 ∧ m - p.last_trigger_ts < 14 * 86400) := by
    intro m
    unfold winback_skip
    split_ifs with h1 h2 h3
    · simp [h1]
    · exact ⟨fun _ => Or.inr (Or.inl (by omega)), fun _ => rfl⟩
    · exact ⟨fun _ => Or.inr (Or.inr h3), fun _ => rfl⟩
    · constructor
      · intro h
        exact absurd h (by simp)
      · rintro (h | h | h)
        · exact absurd h h1
        · exact absurd (show (m - p.last_order_ts) / 86400 < 7 by omega) h2
        · exact absurd h h3
  refine ⟨hiff now, fun ho ht => ?_, fun ht hcool => ?_, fun htt hel => ?_⟩
  · have := hiff now
    constructor
    · intro hfalse
      by_contra hlt
      have : winback_skip p now = true := by
        rw [this]
        right; left; omega
      rw [hfalse] at this
      exact Bool.false_ne_true this
    · intro hge
      by_contra hne
      have htrue : winback_skip p now = true := by
        cases hb : winback_skip p now with
        | true => rfl
        | false => exact absurd hb hne
      rcases (hiff now).1 htrue with h | h | h
      · rw [ho] at h; exact Bool.false_ne_true h
      · omega
      · exact h.1 ht
  · rw [hiff now]
    right; right; exact ⟨ht, hcool⟩
  · by_contra hne
    have htrue : winback_skip p t' = true := by
      cases hb : winback_skip p t' with
      | true => rfl
      | false => exact absurd hb hne
    have hft : ¬ (winback_skip p t = true) := by
      rw [hel]; exact Bool.false_ne_true
    rw [hiff t] at hft
    push_neg at hft
    rcases (hiff t').1 htrue with h | h | h
    · exact absurd h hft.1
    · have := hft.2.1; omega
    · have := hft.2.2 h.1; omega

/-- Witness for C8: opt-in customer, order at time 0, no prior trigger —
skipped one second before day 7 and eligible exactly at day 7; a customer
triggered one day ago is skipped even 100 days after the order; and
eligibility persists from day 7 to day 8. -/
theorem winback_eligibility_witness :
    winback_skip ⟨false, 0, 0⟩ (7 * 86400 - 1) = true ∧
    winback_skip ⟨false, 0, 0⟩ (7 * 86400) = false ∧
    winback_skip ⟨false, 0, 100 * 86400 - 86400⟩ (100 * 86400) = true ∧
    winback_skip ⟨false, 0, 0⟩ (8 * 86400) = false :=
  ⟨(winback_eligibility ⟨false, 0, 0⟩ (7 * 86400 - 1) 0 0).1.2
     (Or.inr (Or.inl (by decide))),
   ((winback_eligibility ⟨false, 0, 0⟩ (7 * 86400) 0 0).2.1 rfl rfl).2
     (by decide),
   (winback_eligibility ⟨false, 0, 100 * 86400 - 86400⟩ (100 * 86400)
      0 0).2.2.1 (by decide) (by decide),
   (winback_eligibility ⟨false, 0, 0⟩ (8 * 86400) (7 * 86400)
      (8 * 86400)).2.2.2 (by decide)
     (((winback_eligibility ⟨false, 0, 0⟩ (7 * 86400) 0 0).2.1 rfl rfl).2
       (by decide))⟩

/-- C9 counterexample: a transient (non-permanent) delivery failure — e.g.
a network error, not an unreachable recipient — also removes the customer
from the tenant's known-customers set, because the handler's bare
`except Exception` does not distinguish failure kinds; removal is not
restricted to permanent failures as the claim states. -/
theorem winback_remove_on_transient_counterexample :
    (winback_send_step ⟨false, 0, 0⟩ (.failed false) 100).inCustomerSet
      = false ∧
    (winback_send_step ⟨false, 0, 0⟩ (.failed false) 100).profile
      = ⟨false, 0, 0⟩ := by
  constructor
  · decide
  · decide

/-- C9 amended: on successful delivery `last_trigger_ts` is stamped to the
current time and the customer stays in the set; on any delivery failure,
permanent or transient alike, the customer is removed from the tenant's
known-customers set and the profile is left unstamped. -/
theorem winback_send_step_effects (p : CustomerProfile) (res : SendOutcome)
    (now : Int) :
    (res = .delivered →
      winback_send_step p res now
        = ⟨{ p with last_trigger_ts := now }, true⟩) ∧
    (∀ perm, res = .failed perm →
      winback_send_step p res now = ⟨p, false⟩) := by
  constructor
  · intro h
    rw [h]
    rfl
  · intro perm h
    rw [h]
    rfl

/-- Witness for C9's amended claim: success stamps the trigger timestamp;
a permanent failure removes the customer. -/
theorem winback_send_step_effects_witness :
    winback_send_step ⟨false, 5, 0⟩ .delivered 100
      = ⟨⟨false, 5, 100⟩, true⟩ ∧
    winback_send_step ⟨false, 5, 0⟩ (.failed true) 100
      = ⟨⟨false, 5, 0⟩, false⟩ :=
  ⟨(winback_send_step_effects ⟨false, 5, 0⟩ .delivered 100).1 rfl,
   (winback_send_step_effects ⟨false, 5, 0⟩ (.failed true) 100).2 true rfl⟩

/-- C10: the booking button clears the whole conversation state before
anything else, so whatever cart was held in the data bag is discarded, and
the conversation then proceeds to the booking date/time step. -/
theorem booking_start_discards_cart (st : FSM) :
    (booking_start st).tag = .booking_waiting_for_datetime ∧
    (booking_start st).data.cart = [] ∧
    (booking_start st).data = FSMData.empty := by
  refine ⟨rfl, rfl, rfl⟩

end CafeBot
